import Mathlib

/-!
Shallow embedding of the `travel_mas` repository (package `travel_concierge`)
for specification checking.

Source files embedded:
  * `src/travel_concierge/agent.py` — `create_send_message_payload`,
    `TravelHostAgent` (`__init__`, `_async_init_components`, `create`,
    `root_instruction`, `check_active_agent`, `send_message`);
  * `src/travel_concierge/__main__.py` — `get_response_from_agent`.

External collaborators (the `a2a` client library, `httpx`, the ADK runtime,
`uuid`, `datetime`, `pprint`) are parameterised as oracles or opaque string
inputs, exactly at the call boundary where the source invokes them.
Python `dict`s keyed by strings are modelled as insertion-ordered
association lists with Python `dict.__setitem__` semantics (overwrite in
place, append when new).
-/

/-- Insertion-ordered string-keyed dictionary, as Python `dict`:
`d[k] = v` overwrites in place when `k` is present, appends otherwise. -/
def dictInsert {α : Type} : List (String × α) → String → α → List (String × α)
  | [], k, v => [(k, v)]
  | (k0, v0) :: rest, k, v =>
      if k0 = k then (k0, v) :: rest else (k0, v0) :: dictInsert rest k v

/-- Python `d[k]` / `k in d`: lookup by key. -/
def dictGet {α : Type} : List (String × α) → String → Option α
  | [], _ => none
  | (k0, v0) :: rest, k => if k0 = k then some v0 else dictGet rest k

/-- Python truthiness of an optional string value (`if x:`): present and
non-empty. -/
def pyTruthy : Option String → Bool
  | none => false
  | some s => s ≠ ""

/-- The fields of an `a2a.types.AgentCard` that `agent.py` reads
(`card.name`, `card.description`); the remaining fields of the library
type are never consulted by this repository. -/
structure AgentCard where
  name : String
  description : String
deriving DecidableEq, Repr

/-- `travel_concierge.remote_agent_connection.RemoteAgentConnections` is
repository code that is not under `src/`; `agent.py:103` constructs it as
`RemoteAgentConnections(card, address)`. Modelled from the spec: the spec
calls this step "construct client" of the bootstrap
(resolve card → construct client → store in a mapping), so the value is
modelled as the record of its two constructor arguments; its
`send_message` method is an external HTTP call and is parameterised as an
oracle where `TravelHostAgent.send_message` invokes it. -/
structure RemoteAgentConnections where
  card : AgentCard
  address : String
deriving DecidableEq, Repr

/-- Outcome of `A2ACardResolver(client, address).get_agent_card()` followed
by `RemoteAgentConnections(card, address)` at `agent.py:102-103`:
either both succeed with a card, or an `httpx.ConnectError` is raised
(first `except` arm, `agent.py:106`), or some other exception is raised
(second `except` arm, `agent.py:108`). The string carries `str(e)`. -/
inductive ResolveResult where
  | ok (card : AgentCard)
  | connError (e : String)
  | otherError (e : String)
deriving DecidableEq, Repr

/-- Whether a resolution attempt succeeded. -/
def ResolveResult.isOk : ResolveResult → Bool
  | .ok _ => true
  | _ => false

/-- State of a `TravelHostAgent` instance: the attributes set by
`__init__` (`agent.py:84-92`) that the embedded methods read or write.
`printLog` records the `print(...)` calls of the error arms, in order.
(`task_callback` and `agent` are stored but never consulted by the
embedded logic and are omitted.) -/
structure TravelHostAgent where
  remote_agent_connections : List (String × RemoteAgentConnections)
  cards : List (String × AgentCard)
  agents : String
  printLog : List String
deriving DecidableEq, Repr

/-- `TravelHostAgent.__init__`: both dictionaries start empty, `agents`
starts as the empty string. -/
def TravelHostAgent.init : TravelHostAgent :=
  { remote_agent_connections := [], cards := [], agents := "", printLog := [] }

/-- The message printed by the `httpx.ConnectError` arm (`agent.py:107`). -/
def connErrMsg (address e : String) : String :=
  "ERROR: Failed to get agent card from " ++ address ++ ": " ++ e

/-- The message printed by the generic `except Exception` arm
(`agent.py:109`). -/
def otherErrMsg (address e : String) : String :=
  "ERROR: Failed to initialize connection for " ++ address ++ ": " ++ e

/-- One iteration of the `for address in remote_agent_addresses` loop of
`_async_init_components` (`agent.py:98-109`): on success store the
connection and the card under `card.name`; on an exception print the
corresponding error message and leave both dictionaries untouched. -/
def TravelHostAgent.initStep (resolve : String → ResolveResult)
    (self : TravelHostAgent) (address : String) : TravelHostAgent :=
  match resolve address with
  | .ok card =>
      { self with
        remote_agent_connections :=
          dictInsert self.remote_agent_connections card.name
            { card := card, address := address },
        cards := dictInsert self.cards card.name card }
  | .connError e =>
      { self with printLog := self.printLog ++ [connErrMsg address e] }
  | .otherError e =>
      { self with printLog := self.printLog ++ [otherErrMsg address e] }

/-- The whole `for` loop of `_async_init_components`. -/
def TravelHostAgent.initLoop (resolve : String → ResolveResult) :
    TravelHostAgent → List String → TravelHostAgent
  | self, [] => self
  | self, address :: rest =>
      TravelHostAgent.initLoop resolve (self.initStep resolve address) rest

/-- Hexadecimal digit, lowercase, as produced by Python `json.dumps`
unicode escapes. -/
def hexDigit (n : Nat) : Char :=
  if n < 10 then Char.ofNat (48 + n) else Char.ofNat (87 + n)

/-- Four-digit lowercase hexadecimal rendering of a code unit. -/
def hex4 (n : Nat) : String :=
  String.mk [hexDigit (n / 4096 % 16), hexDigit (n / 256 % 16),
             hexDigit (n / 16 % 16), hexDigit (n % 16)]

/-- `json.dumps` escaping of one character with the default
`ensure_ascii=True`: the two-character escapes for quote, backslash and
control characters with short forms, `\uXXXX` for other control and
non-ASCII characters (surrogate pairs above U+FFFF), the character itself
otherwise. -/
def jsonEscapeChar (c : Char) : String :=
  if c = '"' then "\\\""
  else if c = '\\' then "\\\\"
  else if c = '\n' then "\\n"
  else if c = '\t' then "\\t"
  else if c = '\r' then "\\r"
  else if c = Char.ofNat 8 then "\\b"
  else if c = Char.ofNat 12 then "\\f"
  else if c.toNat < 32 ∨ c.toNat > 126 then
    if c.toNat < 65536 then "\\u" ++ hex4 c.toNat
    else
      let w := c.toNat - 65536
      "\\u" ++ hex4 (55296 + w / 1024) ++ "\\u" ++ hex4 (56320 + w % 1024)
  else String.singleton c

/-- A JSON string literal as `json.dumps` renders it. -/
def jsonString (s : String) : String :=
  "\"" ++ String.join (s.data.map jsonEscapeChar) ++ "\""

/-- `json.dumps({"name": card.name, "description": card.description})`
(`agent.py:113`), with the default separators. -/
def jsonDumpsNameDesc (card : AgentCard) : String :=
  "\x7b\"name\": " ++ jsonString card.name ++
    ", \"description\": " ++ jsonString card.description ++ "\x7d"

/-- `TravelHostAgent._async_init_components` (`agent.py:94-117`): run the
resolution loop, then set `self.agents` to the newline-joined JSON
name/description objects of `self.cards.values()`, or `"No agents found"`
when none resolved. (The informational `print("agent_info:", ...)` at
`agent.py:116` renders a Python list and is not modelled in `printLog`,
which tracks the error prints.) -/
def TravelHostAgent._async_init_components (resolve : String → ResolveResult)
    (self : TravelHostAgent) (remote_agent_addresses : List String) :
    TravelHostAgent :=
  let st := self.initLoop resolve remote_agent_addresses
  let agent_info := st.cards.map (fun p => jsonDumpsNameDesc p.2)
  { st with
    agents :=
      if agent_info.isEmpty then "No agents found"
      else String.intercalate "\n" agent_info }

/-- `TravelHostAgent.create` (`agent.py:119-128`): a fresh instance,
asynchronously initialised. The card-resolution oracle `resolve` stands
for the external `A2ACardResolver` HTTP calls. -/
def TravelHostAgent.create (resolve : String → ResolveResult)
    (remote_agent_addresses : List String) : TravelHostAgent :=
  TravelHostAgent._async_init_components resolve TravelHostAgent.init
    remote_agent_addresses

/-- The `itinerary` value in the session state, when it is a dict: the three
keys `root_instruction` reads (`agent.py:159-161`), each possibly absent. -/
structure Itinerary where
  start_date : Option String
  end_date : Option String
  destination : Option String
deriving DecidableEq, Repr

/-- `state["input_message_metadata"]` as read by `send_message`
(`agent.py:274-277`): only its optional `"message_id"` entry is consulted
(the other entries are copied into a local `metadata` dict that is never
used afterwards). -/
structure InputMessageMetadata where
  message_id : Option String
deriving DecidableEq, Repr

/-- The ADK session state (`context.state` / `tool_context.state`),
restricted to the keys this repository reads or writes. Each field is
`Option` for Python key presence. `session_active` is an optional
truthiness-checked value. `user_profile` holds the string form of the
profile: when the stored value is a dict the source renders it with
`json.dumps(..., indent=2)` (`agent.py:153-154`), an external rendering
modelled as the already-rendered string. A non-dict `itinerary` value
behaves exactly like the `{}` default (`agent.py:157-165`), so `none`
covers both absence and non-dict values. -/
structure SessionState where
  user_profile : Option String
  itinerary : Option Itinerary
  session_id : Option String
  session_active : Option Bool
  active_agent : Option String
  task_id : Option String
  context_id : Option String
  input_message_metadata : Option InputMessageMetadata
deriving DecidableEq, Repr

/-- `TravelHostAgent.check_active_agent` (`agent.py:225-234`): the string
placed under `"active_agent"` in the returned dict — the state's active
agent when `session_id` is present, `session_active` is present and
truthy, and `active_agent` is present; `"None"` otherwise. -/
def TravelHostAgent.check_active_agent (state : SessionState) : String :=
  match state.session_id, state.session_active, state.active_agent with
  | some _, some true, some a => a
  | _, _, _ => "None"

/-- `trip_destination` as computed at `agent.py:157-165`:
`itinerary.get("destination", "Not determined")` for a dict itinerary, the
default otherwise. -/
def tripDestination (state : SessionState) : String :=
  match state.itinerary with
  | some it => match it.destination with
    | some d => d
    | none => "Not determined"
  | none => "Not determined"

/-- `trip_start` as computed at `agent.py:157-165`. -/
def tripStartDate (state : SessionState) : String :=
  match state.itinerary with
  | some it => match it.start_date with
    | some d => d
    | none => "Not set"
  | none => "Not set"

/-- `trip_end` as computed at `agent.py:157-165`. -/
def tripEndDate (state : SessionState) : String :=
  match state.itinerary with
  | some it => match it.end_date with
    | some d => d
    | none => "Not set"
  | none => "Not set"

/-- The `trip_info_context` f-string of `root_instruction`
(`agent.py:167-172`), whitespace included. -/
def tripInfoContext (state : SessionState) : String :=
  "\n        Destination: " ++ tripDestination state ++
  "\n        Start Date: " ++ tripStartDate state ++
  "\n        End Date: " ++ tripEndDate state ++
  "\n        Active Agent: " ++ TravelHostAgent.check_active_agent state ++
  "\n        "

/-- The instruction template (`agent.py:174-222`) up to the
`{self.agents}` interpolation. -/
def instrHead : String :=
  "\n**Role:** You are an expert Travel Concierge. Your primary function is to help users plan and manage their travel, routing requests to specialized remote agents when available.\n\n**Core Responsibilities:**\n\n1. **Travel Planning:** Help users discover destinations, plan itineraries, find flights/hotels, and manage bookings.\n\n2. **Trip Phase Detection:** Determine the current trip phase using the context below:\n   - **Pre-Booking Phase** (no trip dates): Help with inspiration and planning\n   - **Pre-Trip Phase** (before start_date): Assist with preparation tasks\n   - **In-Trip Phase** (during the trip dates): Provide real-time support\n   - **Post-Trip Phase** (after end_date): Collect feedback and preferences\n\n3. **Context-Aware Assistance:** Use relevant contextual information (user preferences, trip details, conversation history) to provide personalized recommendations.\n\n4. **Task Delegation:** When remote agents are available, delegate specialized tasks to appropriate agents via A2A protocol.\n\n**Available Remote A2A Agents:**\n\n"

/-- The template between `{self.agents}` and `{current_time}`. -/
def instrMid1 : String :=
  "\n\n**Current Context:**\nCurrent Time: "

/-- The template between `{current_time}` and `{user_profile_context}`. -/
def instrMid2 : String :=
  "\n\nUser Profile:\n"

/-- The template between `{user_profile_context}` and
`{trip_info_context}`. -/
def instrMid3 : String :=
  "\n\nTrip Information:\n"

/-- The template after `{trip_info_context}` (`agent.py:204-222`). -/
def instrTail : String :=
  "\n\n**Decision Logic:**\n\n- For travel inspiration, destination suggestions, or activity recommendations → Use **inspiration_agent** if available\n- For flight/hotel searches, seat/room selections, or itinerary building → Use **planning_agent** if available\n- For reservations, payment processing, or booking confirmations → Use **booking_agent** if available\n- For pre-trip preparation (visas, weather, packing) → Use **pre_trip_agent** if available\n- For real-time travel support or daily itineraries → Use **in_trip_agent** if available\n- For post-trip feedback or preference extraction → Use **post_trip_agent** if available\n\n**Key Directives:**\n\n✓ Provide helpful travel planning advice to users\n✓ Route tasks to remote agents when available based on trip phase and user intent\n✓ Provide minimal but complete context to remote agents\n✓ Transparently relay all remote agent responses to the user\n✓ Use the send_message tool to communicate with remote agents via A2A\n✓ Handle long-running operations gracefully (agents may take time to respond)\n✓ Focus on the most recent user interactions when making decisions\n"

/-- `TravelHostAgent.root_instruction` (`agent.py:141-223`).
`current_time` stands for the external `datetime.now().strftime(...)`
call. -/
def TravelHostAgent.root_instruction (self : TravelHostAgent)
    (state : SessionState) (current_time : String) : String :=
  let user_profile_context :=
    match state.user_profile with
    | some s => s
    | none => "No user profile available"
  instrHead ++ self.agents ++ instrMid1 ++ current_time ++ instrMid2 ++
    user_profile_context ++ instrMid3 ++ tripInfoContext state ++ instrTail

/-- A `{"type": "text", "text": ...}` part dict. -/
structure TextPart where
  ty : String
  text : String
deriving DecidableEq, Repr

/-- The `"message"` dict of a send-message payload: fixed keys plus the
two conditionally present keys `taskId` and `contextId`
(`Option` = key presence). -/
structure MessageDict where
  role : String
  parts : List TextPart
  messageId : String
  taskId : Option String
  contextId : Option String
deriving DecidableEq, Repr

/-- The payload dict `{"message": {...}}`. -/
structure PayloadDict where
  message : MessageDict
deriving DecidableEq, Repr

/-- `create_send_message_payload` (`agent.py:52-69`). `uuidHex` stands for
the external `uuid.uuid4().hex`. The `taskId` / `contextId` keys are added
only when the corresponding argument is truthy. -/
def create_send_message_payload (text : String) (uuidHex : String)
    (task_id : Option String) (context_id : Option String) : PayloadDict :=
  let base : MessageDict :=
    { role := "user",
      parts := [{ ty := "text", text := text }],
      messageId := uuidHex,
      taskId := none,
      contextId := none }
  let m1 := if pyTruthy task_id then { base with taskId := task_id } else base
  let m2 :=
    if pyTruthy context_id then { m1 with contextId := context_id } else m1
  { message := m2 }

/-- Minimal model of `a2a.types.Task`: an opaque identifier. Only its
identity flows through `send_message`. -/
structure TaskT where
  id : String
deriving DecidableEq, Repr

/-- Minimal model of `a2a.types.Message` as a possible `result` of a
success response (the non-`Task` case). -/
structure A2AMessage where
  messageId : String
deriving DecidableEq, Repr

/-- The `result` of a `SendMessageSuccessResponse`: a `Task` or a
`Message`. -/
inductive SendResult where
  | task (t : TaskT)
  | message (m : A2AMessage)
deriving DecidableEq, Repr

/-- `send_response.root`: either a `SendMessageSuccessResponse` carrying a
result, or a JSON-RPC error response. -/
inductive ResponseRoot where
  | success (result : SendResult)
  | jsonrpcError (code : Int) (message : String)
deriving DecidableEq, Repr

/-- `a2a.types.SendMessageResponse` (a root model wrapping one of the two
response shapes). -/
structure SendMessageResponse where
  root : ResponseRoot
deriving DecidableEq, Repr

/-- `a2a.types.SendMessageRequest` as built at `agent.py:297-299`:
`id=message_id`, `params=MessageSendParams.model_validate(payload)`. The
payload built by `send_message` always satisfies the `Message` schema
(fixed `"user"` role, a single `"text"` part, string ids), so the external
pydantic validation is modelled as the identity on the payload. -/
structure SendMessageRequest where
  id : String
  params : PayloadDict
deriving DecidableEq, Repr

/-- The exceptions `send_message` can terminate with: the `ValueError`
raised by its own guard, or an exception propagating out of the awaited
`client.send_message` call (carried as its string rendering). -/
inductive SendExn where
  | valueError (msg : String)
  | clientError (e : String)
deriving DecidableEq, Repr

/-- Lines `agent.py:265-299` of `send_message`: derive `task_id`,
`context_id` and `message_id` from the session state (a fresh
`str(uuid.uuid4())` draw, passed as an oracle, when absent or falsy),
build the payload dict with its two conditional keys, and wrap it into the
`SendMessageRequest`. `state` is the session state as it stands at
`agent.py:265`, i.e. after `active_agent` was set. The `message_id`
selection (`agent.py:272-279`) takes `input_message_metadata["message_id"]`
when present and truthy, else a fresh uuid; the local `metadata` dict
(`agent.py:273-275`) is dead after its update and is not modelled. -/
def buildMessageRequest (task : String) (state : SessionState)
    (uuid_task uuid_ctx uuid_msg : String) : SendMessageRequest :=
  let task_id :=
    match state.task_id with
    | some t => t
    | none => uuid_task
  let context_id :=
    match state.context_id with
    | some c => c
    | none => uuid_ctx
  let message_id0 :=
    match state.input_message_metadata with
    | some md =>
        match md.message_id with
        | some m => m
        | none => ""
    | none => ""
  let message_id := if message_id0 = "" then uuid_msg else message_id0
  let base : MessageDict :=
    { role := "user",
      parts := [{ ty := "text", text := task }],
      messageId := message_id,
      taskId := none,
      contextId := none }
  let m1 := if task_id ≠ "" then { base with taskId := some task_id } else base
  let m2 :=
    if context_id ≠ "" then { m1 with contextId := some context_id } else m1
  { id := message_id, params := { message := m2 } }

/-- `TravelHostAgent.send_message` (`agent.py:243-316`).

Oracles for external calls: `uuid_task`, `uuid_ctx`, `uuid_msg` stand for
the three possible `str(uuid.uuid4())` draws, and `clientSend` for the
awaited `client.send_message(...)` of the `RemoteAgentConnections` object
(`Except.error` = the call raised, e.g. a connection error).

Returns the outcome (`Except.error` = the Python call raised) paired with
the final session state. Note on `agent.py:263` (`if not client:`): it
tests the truthiness of a `RemoteAgentConnections` instance, which
defines no `__bool__`/`__len__` and is therefore always truthy, so that
`ValueError` is unreachable once the dict lookup succeeded. -/
def TravelHostAgent.send_message (self : TravelHostAgent)
    (agent_name : String) (task : String) (state : SessionState)
    (uuid_task uuid_ctx uuid_msg : String)
    (clientSend : SendMessageRequest → Except String SendMessageResponse) :
    Except SendExn (Option TaskT) × SessionState :=
  match dictGet self.remote_agent_connections agent_name with
  | none =>
      (Except.error (SendExn.valueError ("Agent " ++ agent_name ++ " not found")),
       state)
  | some _client =>
      let state := { state with active_agent := some agent_name }
      let message_request :=
        buildMessageRequest task state uuid_task uuid_ctx uuid_msg
      match clientSend message_request with
      | Except.error e => (Except.error (SendExn.clientError e), state)
      | Except.ok send_response =>
          match send_response.root with
          | ResponseRoot.success result =>
              match result with
              | SendResult.task t => (Except.ok (some t), state)
              | _ => (Except.ok none, state)
          | _ => (Except.ok none, state)

/-- A `function_call` carried by an event part: its `name`, plus the
opaque rendering `pformat(part.function_call.model_dump(exclude_none=True),
indent=2, width=80)` produced by the external `pydantic`/`pprint` calls
(`__main__.py:44`). -/
structure FunctionCall where
  name : String
  dump : String
deriving DecidableEq, Repr

/-- The `response` attribute of a `function_response` part, as consumed at
`__main__.py:50-57`: either a dict containing a `"response"` key (whose
value is then rendered) or any other value (rendered whole). The string is
the opaque `pformat(..., indent=2, width=80)` rendering of the selected
value. -/
inductive RespContent where
  | withResponseKey (inner : String)
  | other (dump : String)
deriving DecidableEq, Repr

/-- A `function_response` carried by an event part. -/
structure FunctionResponse where
  name : String
  response : RespContent
deriving DecidableEq, Repr

/-- A part of an ADK event's content (`google.genai.types.Part`): the three
attributes `get_response_from_agent` reads. -/
structure GenPart where
  function_call : Option FunctionCall
  function_response : Option FunctionResponse
  text : Option String
deriving DecidableEq, Repr

/-- `event.content`: its list of parts (a `None` parts attribute behaves
like the empty list under the `event.content.parts` truthiness test). -/
structure EventContent where
  parts : List GenPart
deriving DecidableEq, Repr

/-- `event.actions`: the only attribute read is `escalate`. -/
structure EventActions where
  escalate : Bool
deriving DecidableEq, Repr

/-- An ADK event as consumed by `get_response_from_agent`: content,
actions, error message, and the value of `event.is_final_response()`. -/
structure Event where
  content : Option EventContent
  actions : Option EventActions
  error_message : Option String
  is_final : Bool
deriving DecidableEq, Repr

/-- A chat message dictionary `{"role": ..., "content": ...}` yielded to
the caller. -/
structure ChatMsg where
  role : String
  content : String
deriving DecidableEq, Repr

/-- The message yielded for one part by the loop body at
`__main__.py:42-62`: a tool-call message when `part.function_call` is
truthy, otherwise a tool-response message when `part.function_response`
is truthy, otherwise nothing. -/
def partMsg (p : GenPart) : Option ChatMsg :=
  match p.function_call with
  | some fc =>
      some { role := "assistant",
             content := "🛠️ **Tool Call: " ++ fc.name ++ "**\n" ++
               ("```python\n" ++ fc.dump ++ "\n```") }
  | none =>
      match p.function_response with
      | some fr =>
          let formatted_response_data :=
            match fr.response with
            | RespContent.withResponseKey inner => inner
            | RespContent.other d => d
          some { role := "assistant",
                 content := "⚡ **Tool Response from " ++ fr.name ++ "**\n" ++
                   ("```json\n" ++ formatted_response_data ++ "\n```") }
      | none => none

/-- The messages yielded for one event's parts, guarded by
`if event.content and event.content.parts:` (`__main__.py:41`). -/
def eventPartMsgs (e : Event) : List ChatMsg :=
  match e.content with
  | some c => if c.parts.isEmpty then [] else c.parts.filterMap partMsg
  | none => []

/-- The `elif event.actions and event.actions.escalate:` fallback text of
the final-response branch (`__main__.py:69-70`); empty when it does not
apply. `event.error_message or "No specific message."` substitutes the
default for an absent or empty message. -/
def escalText (e : Event) : String :=
  match e.actions with
  | some a =>
      if a.escalate then
        "Agent escalated: " ++
          (match e.error_message with
           | some m => if m = "" then "No specific message." else m
           | none => "No specific message.")
      else ""
  | none => ""

/-- `final_response_text` as computed at `__main__.py:64-70`: the
concatenation of the truthy `text` attributes of the final event's parts
when content with parts is present, the escalation text otherwise
(starting from `""`). -/
def finalResponseText (e : Event) : String :=
  match e.content with
  | some c =>
      if c.parts.isEmpty then escalText e
      else
        String.join (c.parts.filterMap (fun p =>
          match p.text with
          | some t => if t = "" then none else some t
          | none => none))
  | none => escalText e

/-- The messages yielded by the final-response branch: one assistant
message carrying `final_response_text` when it is non-empty, nothing
otherwise (`__main__.py:71-72`). -/
def finalYield (e : Event) : List ChatMsg :=
  let t := finalResponseText e
  if t = "" then [] else [{ role := "assistant", content := t }]

/-- The fixed error notice yielded by the `except` arm
(`__main__.py:77-80`). -/
def errorNotice : ChatMsg :=
  { role := "assistant",
    content := "An error occurred while processing your request. Please check the server logs for details." }

/-- The exception caught by `get_response_from_agent`: the name of its
type and its string rendering, as interpolated into the printed line. -/
structure PyExn where
  ty : String
  msg : String
deriving DecidableEq, Repr

/-- The line printed by the `except` arm (`__main__.py:75`); the
subsequent `traceback.print_exc()` output is opaque and not modelled. -/
def errPrintLine (e : PyExn) : String :=
  "Error in get_response_from_agent (Type: " ++ e.ty ++ "): " ++ e.msg

/-- `get_response_from_agent` (`__main__.py:28-80`).

The external runner is modelled by its observable behaviour at this call
site: the list of events it delivers before either completing normally
(`exn = none`) or raising (`exn = some e`; this also covers `run_async`
itself raising, with an empty event list). Returns the yielded chat
messages paired with the lines printed by the error handler. The `break`
at the first final-response event (`__main__.py:73`) ends the iteration,
so a pending exception after it is never raised. -/
def get_response_from_agent : List Event → Option PyExn → List ChatMsg × List String
  | [], none => ([], [])
  | [], some ex => ([errorNotice], [errPrintLine ex])
  | e :: rest, exn =>
      let ms := eventPartMsgs e
      if e.is_final then (ms ++ finalYield e, [])
      else
        let r := get_response_from_agent rest exn
        (ms ++ r.1, r.2)

/-- `t` occurs contiguously inside `s`. -/
def ContainsSub (s t : String) : Prop :=
  t.data <:+: s.data

/-- A part is well formed when it does not carry both a `function_call`
and a `function_response` (ADK parts populate at most one of the two). -/
def PartWF (p : GenPart) : Prop :=
  ¬(p.function_call.isSome ∧ p.function_response.isSome)

/-- The last address of the list whose resolution succeeds with a card
named `n`, together with that card: the entry that survives in a
Python dict after the whole resolution loop ran (later iterations
overwrite earlier ones under the same key). -/
def lastResolved (resolve : String → ResolveResult) :
    List String → String → Option (String × AgentCard)
  | [], _ => none
  | a :: l, n =>
      match lastResolved resolve l n with
      | some r => some r
      | none =>
          match resolve a with
          | .ok c => if c.name = n then some (a, c) else none
          | _ => none

/-- A session state with no keys set. -/
def SessionState.empty : SessionState :=
  { user_profile := none, itinerary := none, session_id := none,
    session_active := none, active_agent := none, task_id := none,
    context_id := none, input_message_metadata := none }

theorem containsSub_self (s : String) : ContainsSub s s :=
  List.infix_refl s.data

theorem containsSub_appendLeft (u s t : String) (h : ContainsSub s t) :
    ContainsSub (u ++ s) t := by
  show t.data <:+: (u ++ s).data
  rw [String.data_append]
  exact h.trans (List.suffix_append u.data s.data).isInfix

theorem containsSub_appendRight (s t u : String) (h : ContainsSub s t) :
    ContainsSub (s ++ u) t := by
  show t.data <:+: (s ++ u).data
  rw [String.data_append]
  exact h.trans (List.prefix_append s.data u.data).isInfix

theorem dictGet_insert_self {α : Type} (d : List (String × α)) (k : String)
    (v : α) : dictGet (dictInsert d k v) k = some v := by
  induction d with
  | nil => simp [dictInsert, dictGet]
  | cons hd tl ih =>
      obtain ⟨k0, v0⟩ := hd
      by_cases h : k0 = k
      · simp [dictInsert, dictGet, h]
      · simp [dictInsert, dictGet, h, ih]

theorem dictGet_insert_ne {α : Type} (d : List (String × α)) (k k' : String)
    (v : α) (h : k' ≠ k) :
    dictGet (dictInsert d k v) k' = dictGet d k' := by
  induction d with
  | nil => simp [dictInsert, dictGet, Ne.symm h]
  | cons hd tl ih =>
      obtain ⟨k0, v0⟩ := hd
      by_cases h0 : k0 = k
      · subst h0
        simp [dictInsert, dictGet, Ne.symm h]
      · simp [dictInsert, dictGet, h0, ih]

theorem initLoop_conns_lookup (resolve : String → ResolveResult)
    (l : List String) : ∀ (st : TravelHostAgent) (n : String),
    dictGet (TravelHostAgent.initLoop resolve st l).remote_agent_connections n =
      (match lastResolved resolve l n with
       | some r => some { card := r.2, address := r.1 }
       | none => dictGet st.remote_agent_connections n) := by
  induction l with
  | nil => intro st n; rfl
  | cons a l ih =>
      intro st n
      show dictGet (TravelHostAgent.initLoop resolve
        (st.initStep resolve a) l).remote_agent_connections n = _
      rw [ih]
      cases hl : lastResolved resolve l n with
      | some r => simp only [lastResolved, hl]
      | none =>
          simp only [lastResolved, hl]
          cases hr : resolve a with
          | ok c =>
              simp only [TravelHostAgent.initStep, hr]
              by_cases hn : c.name = n
              · subst hn
                simp [dictGet_insert_self]
              · simp [hn, dictGet_insert_ne _ _ _ _ (Ne.symm hn)]
          | connError e => simp only [TravelHostAgent.initStep, hr]
          | otherError e => simp only [TravelHostAgent.initStep, hr]

theorem initLoop_cards_lookup (resolve : String → ResolveResult)
    (l : List String) : ∀ (st : TravelHostAgent) (n : String),
    dictGet (TravelHostAgent.initLoop resolve st l).cards n =
      (match lastResolved resolve l n with
       | some r => some r.2
       | none => dictGet st.cards n) := by
  induction l with
  | nil => intro st n; rfl
  | cons a l ih =>
      intro st n
      show dictGet (TravelHostAgent.initLoop resolve
        (st.initStep resolve a) l).cards n = _
      rw [ih]
      cases hl : lastResolved resolve l n with
      | some r => simp only [lastResolved, hl]
      | none =>
          simp only [lastResolved, hl]
          cases hr : resolve a with
          | ok c =>
              simp only [TravelHostAgent.initStep, hr]
              by_cases hn : c.name = n
              · subst hn
                simp [dictGet_insert_self]
              · simp [hn, dictGet_insert_ne _ _ _ _ (Ne.symm hn)]
          | connError e => simp only [TravelHostAgent.initStep, hr]
          | otherError e => simp only [TravelHostAgent.initStep, hr]

theorem lastResolved_spec (resolve : String → ResolveResult) :
    ∀ (l : List String) (n a : String) (c : AgentCard),
    lastResolved resolve l n = some (a, c) →
    a ∈ l ∧ resolve a = .ok c ∧ c.name = n := by
  intro l
  induction l with
  | nil => intro n a c h; simp [lastResolved] at h
  | cons b l ih =>
      intro n a c h
      unfold lastResolved at h
      cases hl : lastResolved resolve l n with
      | some r =>
          rw [hl] at h
          obtain ⟨hr⟩ := h
          obtain ⟨ha, hb, hc⟩ := ih n a c hl
          exact ⟨List.mem_cons_of_mem b ha, hb, hc⟩
      | none =>
          rw [hl] at h
          cases hr : resolve b with
          | ok c0 =>
              rw [hr] at h
              by_cases hn : c0.name = n
              · simp [hn] at h
                obtain ⟨hab, hcc⟩ := h
                subst hab; subst hcc
                exact ⟨List.mem_cons_self b l, hr, hn⟩
              · simp [hn] at h
          | connError e => rw [hr] at h; simp at h
          | otherError e => rw [hr] at h; simp at h

theorem lastResolved_isSome (resolve : String → ResolveResult) :
    ∀ (l : List String) (n a : String) (c : AgentCard),
    a ∈ l → resolve a = .ok c → c.name = n →
    (lastResolved resolve l n).isSome := by
  intro l
  induction l with
  | nil => intro n a c ha; simp at ha
  | cons b l ih =>
      intro n a c ha hr hn
      unfold lastResolved
      cases hl : lastResolved resolve l n with
      | some r => simp
      | none =>
          rcases List.mem_cons.mp ha with hab | hmem
          · subst hab
            rw [hr]
            simp [hn]
          · have := ih n a c hmem hr hn
            rw [hl] at this
            simp at this

theorem initLoop_append (resolve : String → ResolveResult)
    (l1 l2 : List String) : ∀ st : TravelHostAgent,
    TravelHostAgent.initLoop resolve st (l1 ++ l2) =
      TravelHostAgent.initLoop resolve
        (TravelHostAgent.initLoop resolve st l1) l2 := by
  induction l1 with
  | nil => intro st; rfl
  | cons a l ih => intro st; exact ih (st.initStep resolve a)

theorem initStep_congr (resolve : String → ResolveResult)
    (st st' : TravelHostAgent) (a : String)
    (h1 : st.remote_agent_connections = st'.remote_agent_connections)
    (h2 : st.cards = st'.cards) :
    (st.initStep resolve a).remote_agent_connections =
      (st'.initStep resolve a).remote_agent_connections ∧
    (st.initStep resolve a).cards = (st'.initStep resolve a).cards := by
  unfold TravelHostAgent.initStep
  cases resolve a with
  | ok c => exact ⟨by rw [h1], by rw [h2]⟩
  | connError e => exact ⟨h1, h2⟩
  | otherError e => exact ⟨h1, h2⟩

theorem initLoop_congr (resolve : String → ResolveResult) (l : List String) :
    ∀ st st' : TravelHostAgent,
    st.remote_agent_connections = st'.remote_agent_connections →
    st.cards = st'.cards →
    (TravelHostAgent.initLoop resolve st l).remote_agent_connections =
      (TravelHostAgent.initLoop resolve st' l).remote_agent_connections ∧
    (TravelHostAgent.initLoop resolve st l).cards =
      (TravelHostAgent.initLoop resolve st' l).cards := by
  induction l with
  | nil => intro st st' h1 h2; exact ⟨h1, h2⟩
  | cons a l ih =>
      intro st st' h1 h2
      obtain ⟨g1, g2⟩ := initStep_congr resolve st st' a h1 h2
      exact ih _ _ g1 g2

theorem initStep_printLog (resolve : String → ResolveResult)
    (st : TravelHostAgent) (a : String) :
    ∃ t, (st.initStep resolve a).printLog = st.printLog ++ t := by
  unfold TravelHostAgent.initStep
  cases resolve a with
  | ok c => exact ⟨[], by simp⟩
  | connError e => exact ⟨[connErrMsg a e], rfl⟩
  | otherError e => exact ⟨[otherErrMsg a e], rfl⟩

theorem initLoop_printLog (resolve : String → ResolveResult)
    (l : List String) : ∀ st : TravelHostAgent,
    ∃ t, (TravelHostAgent.initLoop resolve st l).printLog =
      st.printLog ++ t := by
  induction l with
  | nil => intro st; exact ⟨[], by simp [TravelHostAgent.initLoop]⟩
  | cons a l ih =>
      intro st
      obtain ⟨t1, h1⟩ := initStep_printLog resolve st a
      obtain ⟨t2, h2⟩ := ih (st.initStep resolve a)
      exact ⟨t1 ++ t2, by
        show (TravelHostAgent.initLoop resolve (st.initStep resolve a) l).printLog = _
        rw [h2, h1, List.append_assoc]⟩

theorem initLoop_allFail (resolve : String → ResolveResult)
    (l : List String) (hf : ∀ a ∈ l, (resolve a).isOk = false) :
    ∀ st : TravelHostAgent,
    (TravelHostAgent.initLoop resolve st l).remote_agent_connections =
      st.remote_agent_connections ∧
    (TravelHostAgent.initLoop resolve st l).cards = st.cards := by
  induction l with
  | nil => intro st; exact ⟨rfl, rfl⟩
  | cons a l ih =>
      intro st
      have ha : (resolve a).isOk = false := hf a (List.mem_cons_self a l)
      have hl : ∀ b ∈ l, (resolve b).isOk = false :=
        fun b hb => hf b (List.mem_cons_of_mem a hb)
      have step : (st.initStep resolve a).remote_agent_connections =
          st.remote_agent_connections ∧
          (st.initStep resolve a).cards = st.cards := by
        unfold TravelHostAgent.initStep
        cases hr : resolve a with
        | ok c => rw [hr] at ha; simp [ResolveResult.isOk] at ha
        | connError e => exact ⟨rfl, rfl⟩
        | otherError e => exact ⟨rfl, rfl⟩
      obtain ⟨s1, s2⟩ := step
      obtain ⟨g1, g2⟩ := (ih hl) (st.initStep resolve a)
      constructor
      · show (TravelHostAgent.initLoop resolve
          (st.initStep resolve a) l).remote_agent_connections =
            st.remote_agent_connections
        rw [g1, s1]
      · show (TravelHostAgent.initLoop resolve
          (st.initStep resolve a) l).cards = st.cards
        rw [g2, s2]

theorem dictInsert_keys_eq {α β : Type} :
    ∀ (d1 : List (String × α)) (d2 : List (String × β)) (k : String)
      (v1 : α) (v2 : β),
    d1.map Prod.fst = d2.map Prod.fst →
    (dictInsert d1 k v1).map Prod.fst = (dictInsert d2 k v2).map Prod.fst := by
  intro d1
  induction d1 with
  | nil =>
      intro d2 k v1 v2 h
      cases d2 with
      | nil => simp [dictInsert]
      | cons hd tl => simp at h
  | cons hd tl ih =>
      intro d2 k v1 v2 h
      cases d2 with
      | nil => simp at h
      | cons hd2 tl2 =>
          obtain ⟨k1, w1⟩ := hd
          obtain ⟨k2, w2⟩ := hd2
          simp at h
          obtain ⟨hk, ht⟩ := h
          subst hk
          by_cases hkk : k1 = k
          · simp [dictInsert, hkk, ht]
          · simp [dictInsert, hkk, ht, ih tl2 k v1 v2 ht]

theorem initStep_keys (resolve : String → ResolveResult)
    (st : TravelHostAgent) (a : String)
    (h : st.cards.map Prod.fst = st.remote_agent_connections.map Prod.fst) :
    (st.initStep resolve a).cards.map Prod.fst =
      (st.initStep resolve a).remote_agent_connections.map Prod.fst := by
  unfold TravelHostAgent.initStep
  cases resolve a with
  | ok c => exact dictInsert_keys_eq _ _ _ _ _ h
  | connError e => exact h
  | otherError e => exact h

theorem initLoop_keys (resolve : String → ResolveResult) (l : List String) :
    ∀ st : TravelHostAgent,
    st.cards.map Prod.fst = st.remote_agent_connections.map Prod.fst →
    (TravelHostAgent.initLoop resolve st l).cards.map Prod.fst =
      (TravelHostAgent.initLoop resolve st l).remote_agent_connections.map
        Prod.fst := by
  induction l with
  | nil => intro st h; exact h
  | cons a l ih => intro st h; exact ih _ (initStep_keys resolve st a h)

/-- C1: For every list of remote agent addresses, `TravelHostAgent.create`
performs the bootstrap "resolve card, construct client, store in a
mapping": each address whose card resolution succeeds ends up, after
initialization, with `remote_agent_connections` mapping `card.name` to the
`RemoteAgentConnections` built from that card and address, and `cards`
mapping `card.name` to that card; and every entry of either mapping comes
from a successfully resolved address (failures contribute no entries).
The hypothesis `hdist` pins down the Python-dict overwrite: distinct
addresses of the list do not resolve to cards with the same name (with a
collision, the later address would overwrite the earlier entry). -/
theorem c1_create_bootstrap (resolve : String → ResolveResult)
    (addrs : List String)
    (hdist : ∀ a1 ∈ addrs, ∀ a2 ∈ addrs, ∀ c1 c2 : AgentCard,
      resolve a1 = .ok c1 → resolve a2 = .ok c2 → c1.name = c2.name →
      a1 = a2) :
    (∀ addr ∈ addrs, ∀ card : AgentCard, resolve addr = .ok card →
      dictGet (TravelHostAgent.create resolve addrs).remote_agent_connections
          card.name = some { card := card, address := addr } ∧
      dictGet (TravelHostAgent.create resolve addrs).cards card.name =
        some card) ∧
    (∀ (n : String) (conn : RemoteAgentConnections),
      dictGet (TravelHostAgent.create resolve addrs).remote_agent_connections
          n = some conn →
      ∃ a ∈ addrs, resolve a = .ok conn.card ∧ conn.card.name = n ∧
        conn.address = a) ∧
    (∀ (n : String) (c : AgentCard),
      dictGet (TravelHostAgent.create resolve addrs).cards n = some c →
      ∃ a ∈ addrs, resolve a = .ok c ∧ c.name = n) := by
  have hc : (TravelHostAgent.create resolve addrs).remote_agent_connections =
      (TravelHostAgent.initLoop resolve TravelHostAgent.init
        addrs).remote_agent_connections := rfl
  have hd : (TravelHostAgent.create resolve addrs).cards =
      (TravelHostAgent.initLoop resolve TravelHostAgent.init addrs).cards :=
    rfl
  refine ⟨?_, ?_, ?_⟩
  · intro addr ha card hr
    have hsome := lastResolved_isSome resolve addrs card.name addr card ha hr
      rfl
    cases heq : lastResolved resolve addrs card.name with
    | none => rw [heq] at hsome; simp at hsome
    | some r =>
        obtain ⟨a0, c0⟩ := r
        obtain ⟨hmem0, hres0, hname0⟩ :=
          lastResolved_spec resolve addrs card.name a0 c0 heq
        have haddr : a0 = addr :=
          hdist a0 hmem0 addr ha c0 card hres0 hr hname0
        subst haddr
        have hc0 : c0 = card := by
          rw [hr] at hres0
          injection hres0 with h
          exact h.symm
        subst hc0
        constructor
        · rw [hc, initLoop_conns_lookup, heq]
        · rw [hd, initLoop_cards_lookup, heq]
  · intro n conn h
    rw [hc, initLoop_conns_lookup] at h
    cases heq : lastResolved resolve addrs n with
    | none =>
        rw [heq] at h
        simp [TravelHostAgent.init, dictGet] at h
    | some r =>
        rw [heq] at h
        obtain ⟨a0, c0⟩ := r
        obtain ⟨hmem0, hres0, hname0⟩ :=
          lastResolved_spec resolve addrs n a0 c0 heq
        injection h with h
        subst h
        exact ⟨a0, hmem0, hres0, hname0, rfl⟩
  · intro n c h
    rw [hd, initLoop_cards_lookup] at h
    cases heq : lastResolved resolve addrs n with
    | none =>
        rw [heq] at h
        simp [TravelHostAgent.init, dictGet] at h
    | some r =>
        rw [heq] at h
        obtain ⟨a0, c0⟩ := r
        obtain ⟨hmem0, hres0, hname0⟩ :=
          lastResolved_spec resolve addrs n a0 c0 heq
        injection h with h
        subst h
        exact ⟨a0, hmem0, hres0, hname0⟩

/-- Witness for C1 at a concrete input: one address resolving to a card
named `alpha`. -/
theorem c1_create_bootstrap_witness :
    dictGet (TravelHostAgent.create
        (fun a => if a = "http://x" then
            ResolveResult.ok { name := "alpha", description := "d" }
          else ResolveResult.connError "refused")
        ["http://x"]).remote_agent_connections "alpha" =
      some { card := { name := "alpha", description := "d" },
             address := "http://x" } := by
  have h := c1_create_bootstrap
    (fun a => if a = "http://x" then
        ResolveResult.ok { name := "alpha", description := "d" }
      else ResolveResult.connError "refused")
    ["http://x"]
    (by
      intro a1 h1 a2 h2 c1 c2 e1 e2 hn
      simp at h1 h2
      rw [h1, h2])
  exact (h.1 "http://x" (by simp)
    { name := "alpha", description := "d" } (by simp)).1

/-- C6: Card fetching is wrapped in try/except with atomic effect: when
resolving one address raises (connection error or otherwise), the
exception is caught and the corresponding error line is printed,
`remote_agent_connections` and `cards` gain no entry for that address
(the loop result equals the run without that address), and the remaining
addresses are still processed. -/
theorem c6_card_fetch_atomic (resolve : String → ResolveResult)
    (pre post : List String) (bad : String) (st0 : TravelHostAgent)
    (hfail : (resolve bad).isOk = false) :
    (TravelHostAgent.initLoop resolve st0
        (pre ++ bad :: post)).remote_agent_connections =
      (TravelHostAgent.initLoop resolve st0
        (pre ++ post)).remote_agent_connections ∧
    (TravelHostAgent.initLoop resolve st0 (pre ++ bad :: post)).cards =
      (TravelHostAgent.initLoop resolve st0 (pre ++ post)).cards ∧
    (∀ e, resolve bad = .connError e →
      connErrMsg bad e ∈
        (TravelHostAgent.initLoop resolve st0 (pre ++ bad :: post)).printLog) ∧
    (∀ e, resolve bad = .otherError e →
      otherErrMsg bad e ∈
        (TravelHostAgent.initLoop resolve st0 (pre ++ bad :: post)).printLog) := by
  have e1 : TravelHostAgent.initLoop resolve st0 (pre ++ bad :: post) =
      TravelHostAgent.initLoop resolve
        ((TravelHostAgent.initLoop resolve st0 pre).initStep resolve bad)
        post := by
    rw [initLoop_append]
    rfl
  have e2 : TravelHostAgent.initLoop resolve st0 (pre ++ post) =
      TravelHostAgent.initLoop resolve
        (TravelHostAgent.initLoop resolve st0 pre) post :=
    initLoop_append resolve pre post st0
  have hstep : ((TravelHostAgent.initLoop resolve st0 pre).initStep resolve
        bad).remote_agent_connections =
      (TravelHostAgent.initLoop resolve st0 pre).remote_agent_connections ∧
      ((TravelHostAgent.initLoop resolve st0 pre).initStep resolve bad).cards =
        (TravelHostAgent.initLoop resolve st0 pre).cards := by
    cases hr : resolve bad with
    | ok c => rw [hr] at hfail; simp [ResolveResult.isOk] at hfail
    | connError e =>
        exact ⟨by simp [TravelHostAgent.initStep, hr],
               by simp [TravelHostAgent.initStep, hr]⟩
    | otherError e =>
        exact ⟨by simp [TravelHostAgent.initStep, hr],
               by simp [TravelHostAgent.initStep, hr]⟩
  obtain ⟨hg1, hg2⟩ := initLoop_congr resolve post _ _ hstep.1 hstep.2
  refine ⟨?_, ?_, ?_, ?_⟩
  · rw [e1, e2]; exact hg1
  · rw [e1, e2]; exact hg2
  · intro e he
    rw [e1]
    obtain ⟨t, ht⟩ := initLoop_printLog resolve post
      ((TravelHostAgent.initLoop resolve st0 pre).initStep resolve bad)
    rw [ht]
    have hp : ((TravelHostAgent.initLoop resolve st0 pre).initStep resolve
        bad).printLog =
        (TravelHostAgent.initLoop resolve st0 pre).printLog ++
          [connErrMsg bad e] := by
      simp [TravelHostAgent.initStep, he]
    rw [hp]
    simp
  · intro e he
    rw [e1]
    obtain ⟨t, ht⟩ := initLoop_printLog resolve post
      ((TravelHostAgent.initLoop resolve st0 pre).initStep resolve bad)
    rw [ht]
    have hp : ((TravelHostAgent.initLoop resolve st0 pre).initStep resolve
        bad).printLog =
        (TravelHostAgent.initLoop resolve st0 pre).printLog ++
          [otherErrMsg bad e] := by
      simp [TravelHostAgent.initStep, he]
    rw [hp]
    simp

/-- Witness for C6 at a concrete input: a single failing address between
two successful ones. -/
theorem c6_card_fetch_atomic_witness :
    (TravelHostAgent.initLoop
        (fun a => if a = "bad" then ResolveResult.connError "refused"
          else ResolveResult.ok { name := a, description := "d" })
        TravelHostAgent.init
        (["u1"] ++ "bad" :: ["u2"])).remote_agent_connections =
      (TravelHostAgent.initLoop
        (fun a => if a = "bad" then ResolveResult.connError "refused"
          else ResolveResult.ok { name := a, description := "d" })
        TravelHostAgent.init
        (["u1"] ++ ["u2"])).remote_agent_connections ∧
    connErrMsg "bad" "refused" ∈
      (TravelHostAgent.initLoop
        (fun a => if a = "bad" then ResolveResult.connError "refused"
          else ResolveResult.ok { name := a, description := "d" })
        TravelHostAgent.init
        (["u1"] ++ "bad" :: ["u2"])).printLog := by
  have h := c6_card_fetch_atomic
    (fun a => if a = "bad" then ResolveResult.connError "refused"
      else ResolveResult.ok { name := a, description := "d" })
    ["u1"] ["u2"] "bad" TravelHostAgent.init (by simp [ResolveResult.isOk])
  exact ⟨h.1, h.2.2.1 "refused" (by simp)⟩

/-- C8: Invariant kept by every operation of `TravelHostAgent`: the key
list of `cards` always equals the key list of `remote_agent_connections`
— both start empty, every loop iteration either inserts the same
`card.name` key into both or touches neither, and the invariant holds for
the fully initialized agent produced by `create`. -/
theorem c8_keys_invariant (resolve : String → ResolveResult) :
    TravelHostAgent.init.cards.map Prod.fst =
      TravelHostAgent.init.remote_agent_connections.map Prod.fst ∧
    (∀ (st : TravelHostAgent) (addr : String),
      st.cards.map Prod.fst = st.remote_agent_connections.map Prod.fst →
      (st.initStep resolve addr).cards.map Prod.fst =
        (st.initStep resolve addr).remote_agent_connections.map Prod.fst) ∧
    (∀ addrs : List String,
      (TravelHostAgent.create resolve addrs).cards.map Prod.fst =
        (TravelHostAgent.create resolve
          addrs).remote_agent_connections.map Prod.fst) := by
  refine ⟨rfl, initStep_keys resolve, ?_⟩
  intro addrs
  exact initLoop_keys resolve addrs TravelHostAgent.init rfl

/-- Witness for C8 at a concrete input. -/
theorem c8_keys_invariant_witness :
    (TravelHostAgent.create
        (fun _ => ResolveResult.ok { name := "alpha", description := "d" })
        ["u"]).cards.map Prod.fst =
      (TravelHostAgent.create
        (fun _ => ResolveResult.ok { name := "alpha", description := "d" })
        ["u"]).remote_agent_connections.map Prod.fst :=
  (c8_keys_invariant
    (fun _ => ResolveResult.ok { name := "alpha", description := "d" })).2.2
    ["u"]

theorem create_agents_eq (resolve : String → ResolveResult)
    (addrs : List String) :
    (TravelHostAgent.create resolve addrs).agents =
      (if (TravelHostAgent.create resolve addrs).cards.isEmpty then
         "No agents found"
       else String.intercalate "\n"
         ((TravelHostAgent.create resolve addrs).cards.map
           (fun p => jsonDumpsNameDesc p.2))) := by
  have h : ∀ cl : List (String × AgentCard),
      (if (cl.map (fun p => jsonDumpsNameDesc p.2)).isEmpty then
         "No agents found"
       else String.intercalate "\n"
         (cl.map (fun p => jsonDumpsNameDesc p.2))) =
      (if cl.isEmpty then "No agents found"
       else String.intercalate "\n"
         (cl.map (fun p => jsonDumpsNameDesc p.2))) := by
    intro cl
    cases cl <;> rfl
  exact h (TravelHostAgent.initLoop resolve TravelHostAgent.init addrs).cards

theorem root_instruction_contains_agents (self : TravelHostAgent)
    (state : SessionState) (ct : String) :
    ContainsSub (self.root_instruction state ct) self.agents := by
  simp only [TravelHostAgent.root_instruction]
  exact containsSub_appendRight _ _ _ (containsSub_appendRight _ _ _
    (containsSub_appendRight _ _ _ (containsSub_appendRight _ _ _
      (containsSub_appendRight _ _ _ (containsSub_appendRight _ _ _
        (containsSub_appendRight _ _ _
          (containsSub_appendLeft instrHead _ _
            (containsSub_self self.agents))))))))

theorem root_instruction_contains_trip_info (self : TravelHostAgent)
    (state : SessionState) (ct : String) :
    ContainsSub (self.root_instruction state ct) (tripInfoContext state) := by
  simp only [TravelHostAgent.root_instruction]
  exact containsSub_appendRight _ _ _
    (containsSub_appendLeft _ _ _ (containsSub_self (tripInfoContext state)))

/-- C7: The system prompt embeds the discovered agents: after
initialization `agents` is `"No agents found"` when no card resolved, and
otherwise the newline-joined JSON name/description objects of the stored
cards in insertion order; `root_instruction` returns a prompt containing
`agents` together with the trip context block (destination, start date,
end date, active agent) drawn from the session state, with
`"Not set"` / `"Not determined"` defaults when the itinerary lacks them. -/
theorem c7_prompt_embeds_agents (resolve : String → ResolveResult)
    (addrs : List String) (state : SessionState) (current_time : String) :
    ((∀ a ∈ addrs, (resolve a).isOk = false) →
      (TravelHostAgent.create resolve addrs).agents = "No agents found") ∧
    (TravelHostAgent.create resolve addrs).agents =
      (if (TravelHostAgent.create resolve addrs).cards.isEmpty then
         "No agents found"
       else String.intercalate "\n"
         ((TravelHostAgent.create resolve addrs).cards.map
           (fun p => jsonDumpsNameDesc p.2))) ∧
    ContainsSub
      ((TravelHostAgent.create resolve addrs).root_instruction state
        current_time)
      (TravelHostAgent.create resolve addrs).agents ∧
    ContainsSub
      ((TravelHostAgent.create resolve addrs).root_instruction state
        current_time)
      (tripInfoContext state) ∧
    tripInfoContext state =
      "\n        Destination: " ++ tripDestination state ++
      "\n        Start Date: " ++ tripStartDate state ++
      "\n        End Date: " ++ tripEndDate state ++
      "\n        Active Agent: " ++ TravelHostAgent.check_active_agent state ++
      "\n        " ∧
    (state.itinerary = none →
      tripDestination state = "Not determined" ∧
      tripStartDate state = "Not set" ∧ tripEndDate state = "Not set") ∧
    (∀ it, state.itinerary = some it →
      (it.destination = none → tripDestination state = "Not determined") ∧
      (it.start_date = none → tripStartDate state = "Not set") ∧
      (it.end_date = none → tripEndDate state = "Not set")) := by
  refine ⟨?_, create_agents_eq resolve addrs,
    root_instruction_contains_agents _ state current_time,
    root_instruction_contains_trip_info _ state current_time, rfl, ?_, ?_⟩
  · intro h
    have hall := (initLoop_allFail resolve addrs h TravelHostAgent.init).2
    have hcards : (TravelHostAgent.create resolve addrs).cards = [] := by
      show (TravelHostAgent.initLoop resolve TravelHostAgent.init
        addrs).cards = []
      rw [hall]
      rfl
    rw [create_agents_eq, hcards]
    rfl
  · intro h
    simp [tripDestination, tripStartDate, tripEndDate, h]
  · intro it h
    refine ⟨?_, ?_, ?_⟩ <;> intro hn <;>
      simp [tripDestination, tripStartDate, tripEndDate, h, hn]

/-- Witness for C7 at a concrete input: no address resolves, so the
prompt embeds `"No agents found"`. -/
theorem c7_prompt_embeds_agents_witness :
    (TravelHostAgent.create (fun _ => ResolveResult.connError "refused")
      ["u"]).agents = "No agents found" ∧
    tripDestination SessionState.empty = "Not determined" := by
  have h := c7_prompt_embeds_agents
    (fun _ => ResolveResult.connError "refused") ["u"] SessionState.empty
    "2026-01-01 00:00:00"
  exact ⟨h.1 (by intro a ha; simp [ResolveResult.isOk]),
    (h.2.2.2.2.2.1 rfl).1⟩

theorem pyTruthy_isSome (o : Option String) (h : pyTruthy o = true) :
    o.isSome := by
  cases o with
  | none => simp [pyTruthy] at h
  | some s => rfl

/-- C10: For every text, task id and context id,
`create_send_message_payload` returns a payload whose message has role
`"user"`, exactly one part of type `"text"` carrying the given text, and
a `messageId`; the message contains a `taskId` key if and only if
`task_id` is truthy (and then equal to it), and a `contextId` key if and
only if `context_id` is truthy (and then equal to it). -/
theorem c10_create_send_message_payload (text uuidHex : String)
    (task_id context_id : Option String) :
    (create_send_message_payload text uuidHex task_id
      context_id).message.role = "user" ∧
    (create_send_message_payload text uuidHex task_id
      context_id).message.parts = [{ ty := "text", text := text }] ∧
    (create_send_message_payload text uuidHex task_id
      context_id).message.messageId = uuidHex ∧
    (create_send_message_payload text uuidHex task_id
      context_id).message.taskId =
      (if pyTruthy task_id then task_id else none) ∧
    ((create_send_message_payload text uuidHex task_id
      context_id).message.taskId.isSome ↔ pyTruthy task_id = true) ∧
    (create_send_message_payload text uuidHex task_id
      context_id).message.contextId =
      (if pyTruthy context_id then context_id else none) ∧
    ((create_send_message_payload text uuidHex task_id
      context_id).message.contextId.isSome ↔ pyTruthy context_id = true) := by
  by_cases h1 : pyTruthy task_id <;> by_cases h2 : pyTruthy context_id <;>
    simp [create_send_message_payload, h1, h2, pyTruthy_isSome]

/-- Witness for C10 at a concrete input (a truthy task id, a falsy
context id). -/
theorem c10_create_send_message_payload_witness :
    (create_send_message_payload "hello" "uuid-1" (some "t1")
      (some "")).message.taskId = some "t1" ∧
    (create_send_message_payload "hello" "uuid-1" (some "t1")
      (some "")).message.contextId = none := by
  have h := c10_create_send_message_payload "hello" "uuid-1" (some "t1")
    (some "")
  refine ⟨?_, ?_⟩
  · rw [h.2.2.2.1]
    simp [pyTruthy]
  · rw [h.2.2.2.2.2.1]
    simp [pyTruthy]

theorem send_message_present (self : TravelHostAgent)
    (agent_name task : String) (state : SessionState) (u1 u2 u3 : String)
    (clientSend : SendMessageRequest → Except String SendMessageResponse)
    (conn : RemoteAgentConnections)
    (h : dictGet self.remote_agent_connections agent_name = some conn) :
    TravelHostAgent.send_message self agent_name task state u1 u2 u3
        clientSend =
      ((match clientSend (buildMessageRequest task
          { state with active_agent := some agent_name } u1 u2 u3) with
        | Except.error e => Except.error (SendExn.clientError e)
        | Except.ok resp =>
            match resp.root with
            | ResponseRoot.success (SendResult.task t) => Except.ok (some t)
            | ResponseRoot.success (SendResult.message _) => Except.ok none
            | ResponseRoot.jsonrpcError _ _ => Except.ok none),
       { state with active_agent := some agent_name }) := by
  simp only [TravelHostAgent.send_message, h]
  cases hc : clientSend (buildMessageRequest task
      { state with active_agent := some agent_name } u1 u2 u3) with
  | error e => rfl
  | ok resp =>
      obtain ⟨root⟩ := resp
      cases root with
      | success result => cases result <;> rfl
      | jsonrpcError c m => rfl

/-- C2 counterexample: the claim says `send_message` is wrapped in
try/except and catches a connection error raised by the underlying
`client.send_message`. At a concrete input with the agent name present in
`remote_agent_connections` and a client that raises, the call terminates
with the propagated exception (`Except.error`), not with a caught,
normally-returned value — `agent.py:243-316` contains no try/except. -/
theorem c2_counterexample :
    (TravelHostAgent.send_message
        { remote_agent_connections :=
            [("alpha", { card := { name := "alpha", description := "d" },
                         address := "http://a" })],
          cards := [("alpha", { name := "alpha", description := "d" })],
          agents := "", printLog := [] }
        "alpha" "book a flight" SessionState.empty "t-id" "c-id" "m-id"
        (fun _ => Except.error "ConnectError: connection refused")).1 =
      Except.error (SendExn.clientError "ConnectError: connection refused") := by
  rfl

/-- C2 (amended): `send_message` performs the single-hop call with no
try/except: for every agent name present in `remote_agent_connections`,
if the underlying `client.send_message` raises a connection error, the
exception propagates out of `send_message` to the caller. -/
theorem c2_amended_error_propagates (self : TravelHostAgent)
    (agent_name task : String) (state : SessionState) (u1 u2 u3 err : String)
    (hmem : dictGet self.remote_agent_connections agent_name ≠ none) :
    (TravelHostAgent.send_message self agent_name task state u1 u2 u3
        (fun _ => Except.error err)).1 =
      Except.error (SendExn.clientError err) := by
  cases h : dictGet self.remote_agent_connections agent_name with
  | none => exact absurd h hmem
  | some conn =>
      rw [send_message_present self agent_name task state u1 u2 u3 _ conn h]

/-- Witness for the amended C2 at a concrete input. -/
theorem c2_amended_error_propagates_witness :
    (TravelHostAgent.send_message
        { remote_agent_connections :=
            [("alpha", { card := { name := "alpha", description := "d" },
                         address := "http://a" })],
          cards := [("alpha", { name := "alpha", description := "d" })],
          agents := "", printLog := [] }
        "alpha" "task" SessionState.empty "t" "c" "m"
        (fun _ => Except.error "boom")).1 =
      Except.error (SendExn.clientError "boom") := by
  exact c2_amended_error_propagates _ "alpha" "task" SessionState.empty
    "t" "c" "m" "boom" (by simp [dictGet])

/-- C3: `send_message` does not crash on a bad response shape: for every
agent name present in `remote_agent_connections`, when the client returns
a response, the call returns `None` (without raising) unless the response
is a success response whose result is a `Task`, in which case it returns
that task. -/
theorem c3_bad_response_shape (self : TravelHostAgent)
    (agent_name task : String) (state : SessionState) (u1 u2 u3 : String)
    (resp : SendMessageResponse)
    (hmem : dictGet self.remote_agent_connections agent_name ≠ none) :
    (TravelHostAgent.send_message self agent_name task state u1 u2 u3
        (fun _ => Except.ok resp)).1 =
      Except.ok (match resp.root with
                 | ResponseRoot.success (SendResult.task t) => some t
                 | _ => none) := by
  cases h : dictGet self.remote_agent_connections agent_name with
  | none => exact absurd h hmem
  | some conn =>
      obtain ⟨root⟩ := resp
      rw [send_message_present self agent_name task state u1 u2 u3 _ conn h]
      cases root with
      | success result => cases result <;> rfl
      | jsonrpcError c m => rfl

/-- Witness for C3 at a concrete input: a JSON-RPC error response yields
`Except.ok none` (returned `None`, nothing raised). -/
theorem c3_bad_response_shape_witness :
    (TravelHostAgent.send_message
        { remote_agent_connections :=
            [("alpha", { card := { name := "alpha", description := "d" },
                         address := "http://a" })],
          cards := [("alpha", { name := "alpha", description := "d" })],
          agents := "", printLog := [] }
        "alpha" "task" SessionState.empty "t" "c" "m"
        (fun _ => Except.ok
          { root := ResponseRoot.jsonrpcError (-32600) "bad request" })).1 =
      Except.ok none := by
  exact c3_bad_response_shape _ "alpha" "task" SessionState.empty "t" "c" "m"
    { root := ResponseRoot.jsonrpcError (-32600) "bad request" }
    (by simp [dictGet])

/-- C9: `send_message` raises `ValueError` if and only if `agent_name` is
not a key of `remote_agent_connections`; in that case the session state
is left unchanged (in particular `active_agent` is not set); when the
name is present, `active_agent` is set to `agent_name` before the message
is sent — the final state carries it whatever the client call does,
including when the client raises. -/
theorem c9_value_error_iff_unknown_agent (self : TravelHostAgent)
    (agent_name task : String) (state : SessionState) (u1 u2 u3 : String)
    (clientSend : SendMessageRequest → Except String SendMessageResponse) :
    ((∃ m, (TravelHostAgent.send_message self agent_name task state u1 u2 u3
        clientSend).1 = Except.error (SendExn.valueError m)) ↔
      dictGet self.remote_agent_connections agent_name = none) ∧
    (dictGet self.remote_agent_connections agent_name = none →
      (TravelHostAgent.send_message self agent_name task state u1 u2 u3
        clientSend).2 = state) ∧
    (dictGet self.remote_agent_connections agent_name ≠ none →
      (TravelHostAgent.send_message self agent_name task state u1 u2 u3
        clientSend).2 = { state with active_agent := some agent_name }) := by
  cases h : dictGet self.remote_agent_connections agent_name with
  | none =>
      refine ⟨?_, fun _ => ?_, fun hn => absurd rfl hn⟩
      · simp [TravelHostAgent.send_message, h]
      · simp [TravelHostAgent.send_message, h]
  | some conn =>
      rw [send_message_present self agent_name task state u1 u2 u3 clientSend
        conn h]
      refine ⟨?_, fun hn => by simp at hn, fun _ => rfl⟩
      constructor
      · intro hex
        obtain ⟨m, hm⟩ := hex
        cases hc : clientSend (buildMessageRequest task
            { state with active_agent := some agent_name } u1 u2 u3) with
        | error e => rw [hc] at hm; simp at hm
        | ok resp =>
            obtain ⟨root⟩ := resp
            rw [hc] at hm
            cases root with
            | success result => cases result <;> simp at hm
            | jsonrpcError c me => simp at hm
      · intro hfalse
        simp at hfalse

/-- Witness for C9 at a concrete input: a present agent name sets
`active_agent` even though the client call raises. -/
theorem c9_value_error_iff_unknown_agent_witness :
    (TravelHostAgent.send_message
        { remote_agent_connections :=
            [("alpha", { card := { name := "alpha", description := "d" },
                         address := "http://a" })],
          cards := [("alpha", { name := "alpha", description := "d" })],
          agents := "", printLog := [] }
        "alpha" "task" SessionState.empty "t" "c" "m"
        (fun _ => Except.error "boom")).2 =
      { SessionState.empty with active_agent := some "alpha" } := by
  exact (c9_value_error_iff_unknown_agent _ "alpha" "task" SessionState.empty
    "t" "c" "m" (fun _ => Except.error "boom")).2.2 (by simp [dictGet])

/-- C4: `get_response_from_agent` re-shapes framework events into
chat-message dictionaries: processing an event prepends its per-part
messages and then, at the final-response event, yields the non-empty
concatenated text parts as one assistant message and stops (the rest of
the stream is ignored); a part carrying a `function_call` yields an
assistant message whose content announces the tool call by name, and a
(well-formed) part carrying a `function_response` yields an assistant
message whose content announces the tool response by name. -/
theorem c4_event_reshape (e : Event) (rest : List Event)
    (exn : Option PyExn) :
    ((get_response_from_agent (e :: rest) exn).1 =
      eventPartMsgs e ++ (if e.is_final then finalYield e
        else (get_response_from_agent rest exn).1)) ∧
    (∀ (p : GenPart) (fc : FunctionCall), p.function_call = some fc →
      ∃ m, partMsg p = some m ∧ m.role = "assistant" ∧
        ContainsSub m.content fc.name) ∧
    (∀ p : GenPart, PartWF p → ∀ fr : FunctionResponse,
      p.function_response = some fr →
      ∃ m, partMsg p = some m ∧ m.role = "assistant" ∧
        ContainsSub m.content fr.name) ∧
    (e.is_final → finalResponseText e ≠ "" →
      finalYield e =
        [{ role := "assistant", content := finalResponseText e }]) ∧
    (∀ c, e.content = some c → c.parts.isEmpty = false →
      finalResponseText e = String.join (c.parts.filterMap (fun p =>
        match p.text with
        | some t => if t = "" then none else some t
        | none => none))) := by
  refine ⟨?_, ?_, ?_, ?_, ?_⟩
  · cases hf : e.is_final <;> simp [get_response_from_agent, hf]
  · intro p fc h
    refine ⟨{ role := "assistant",
              content := "🛠️ **Tool Call: " ++ fc.name ++ "**\n" ++
                ("```python\n" ++ fc.dump ++ "\n```") }, ?_, rfl, ?_⟩
    · simp [partMsg, h]
    · exact containsSub_appendRight _ _ _ (containsSub_appendRight _ _ _
        (containsSub_appendLeft _ _ _ (containsSub_self fc.name)))
  · intro p hwf fr h
    cases hfc : p.function_call with
    | some fc =>
        exact absurd ⟨by simp [hfc], by simp [h]⟩ hwf
    | none =>
        refine ⟨{ role := "assistant",
                  content := "⚡ **Tool Response from " ++ fr.name ++
                    "**\n" ++ ("```json\n" ++
                      (match fr.response with
                       | RespContent.withResponseKey inner => inner
                       | RespContent.other d => d) ++ "\n```") },
          ?_, rfl, ?_⟩
        · simp [partMsg, hfc, h]
        · exact containsSub_appendRight _ _ _ (containsSub_appendRight _ _ _
            (containsSub_appendLeft _ _ _ (containsSub_self fr.name)))
  · intro hfin hne
    simp [finalYield, hne]
  · intro c hc hne
    simp [finalResponseText, hc, hne]

/-- Witness for C4 at a concrete input: a part carrying a function call
named `send_message`. -/
theorem c4_event_reshape_witness :
    ∃ m, partMsg { function_call := some { name := "send_message",
                                           dump := "dump" },
                   function_response := none, text := none } =
      some m ∧ m.role = "assistant" ∧ ContainsSub m.content "send_message" := by
  exact (c4_event_reshape
    { content := none, actions := none, error_message := none,
      is_final := false } [] none).2.1
    { function_call := some { name := "send_message", dump := "dump" },
      function_response := none, text := none }
    { name := "send_message", dump := "dump" } rfl

/-- C5: The failure handling of `get_response_from_agent` is exactly
"print the exception and yield an error message": whenever the runner
raises (after delivering events none of which was final, so the exception
is actually reached), the generator catches it, prints the error line,
yields exactly one additional dictionary — the fixed assistant error
notice — after the messages of the normal prefix, and terminates without
re-raising. -/
theorem c5_exception_handling (events : List Event) (ex : PyExn)
    (hnofinal : ∀ e ∈ events, e.is_final = false) :
    (get_response_from_agent events (some ex)).1 =
      (get_response_from_agent events none).1 ++ [errorNotice] ∧
    (get_response_from_agent events (some ex)).2 = [errPrintLine ex] ∧
    errorNotice =
      { role := "assistant",
        content := "An error occurred while processing your request. Please check the server logs for details." } := by
  have key : ∀ l : List Event, (∀ e ∈ l, e.is_final = false) →
      (get_response_from_agent l (some ex)).1 =
        (get_response_from_agent l none).1 ++ [errorNotice] ∧
      (get_response_from_agent l (some ex)).2 = [errPrintLine ex] := by
    intro l
    induction l with
    | nil => intro h0; exact ⟨rfl, rfl⟩
    | cons e rest ih =>
        intro hno
        have hf : e.is_final = false := hno e (List.mem_cons_self e rest)
        have hrest := ih (fun x hx => hno x (List.mem_cons_of_mem e hx))
        constructor
        · simp [get_response_from_agent, hf, hrest.1]
        · simp [get_response_from_agent, hf, hrest.2]
  exact ⟨(key events hnofinal).1, (key events hnofinal).2, rfl⟩

/-- Witness for C5 at a concrete input: one non-final event followed by a
raised exception. -/
theorem c5_exception_handling_witness :
    (get_response_from_agent
        [{ content := none, actions := none, error_message := none,
           is_final := false }]
        (some { ty := "RuntimeError", msg := "boom" })).1 =
      (get_response_from_agent
        [{ content := none, actions := none, error_message := none,
           is_final := false }] none).1 ++ [errorNotice] ∧
    (get_response_from_agent
        [{ content := none, actions := none, error_message := none,
           is_final := false }]
        (some { ty := "RuntimeError", msg := "boom" })).2 =
      [errPrintLine { ty := "RuntimeError", msg := "boom" }] := by
  have h := c5_exception_handling
    [{ content := none, actions := none, error_message := none,
       is_final := false }]
    { ty := "RuntimeError", msg := "boom" }
    (by intro e he; simp at he; rw [he])
  exact ⟨h.1, h.2.1⟩
